import Mathlib

/-
Shallow embedding of the precision-adaptive buffer orchestrator of
src/src/jsts/operation/buffer/BufferOp.js, together with theorems checking
the natural-language specification against it.

The external collaborators (buffer builder, noding, precision model,
geometry) are modelled at their interface boundary: the buffer builder is
an arbitrary oracle mapping each builder invocation (parameters, optional
working precision model, optional noding strategy, geometry, distance) to
either a returned result or a raised error.  JavaScript numbers appearing
in the scale-factor computation are modelled as extended reals (EReal), so
that Math.log(0) = -Infinity and Math.pow(10, Infinity) = Infinity are
representable; the model is faithful for the nonnegative envelope extents
the function is applied to.  Scales handed to precision models are JsNum
(an extended real or NaN), since an arity-mismatched call computes a NaN
scale.  Same-named assignments to one property — the four bufferOp
definitions, and the two bufferReducedPrecision definitions — follow
JavaScript semantics: the later assignment replaces the earlier, and calls
go to the installed value.
-/

set_option maxRecDepth 8000

namespace Jsts

/-- Axis-aligned bounding envelope of a geometry (external collaborator,
modelled by its min/max X/Y coordinates, spec section 6). -/
structure Envelope where
  minx : ℝ
  maxx : ℝ
  miny : ℝ
  maxy : ℝ

/-- Width of an envelope. -/
def Envelope.getWidth (e : Envelope) : ℝ := e.maxx - e.minx

/-- Height of an envelope. -/
def Envelope.getHeight (e : Envelope) : ℝ := e.maxy - e.miny

/-- A JavaScript number as the scale computations of this file need it: NaN,
or an extended real (covering -Infinity and Infinity). -/
inductive JsNum where
  | nan
  | num (x : EReal)

/-- Precision model: unrestricted floating precision, or a fixed grid with a
scale factor.  The scale is a JavaScript number because the orchestrator
feeds the computed scale factor — which can be Infinity, or NaN when the
digit count was an undefined argument — into the model's constructor. -/
inductive PrecisionModel where
  | floating
  | fixed (scale : JsNum)

/-- The type tag of a precision model, as returned by getType(). -/
inductive PMType where
  | FLOATING
  | FIXED
deriving DecidableEq

/-- PrecisionModel.getType(). -/
def PrecisionModel.getType : PrecisionModel → PMType
  | .floating => .FLOATING
  | .fixed _ => .FIXED

/-- PrecisionModel.getScale(); only meaningful on fixed models, which are the
only ones the orchestrator queries. -/
def PrecisionModel.getScale : PrecisionModel → JsNum
  | .floating => JsNum.num 0
  | .fixed s => s

/-- A geometry, seen through the interface the orchestrator uses: its
bounding envelope and its native precision model (spec section 6). -/
structure Geometry where
  envelope : Envelope
  precisionModel : PrecisionModel

/-- Geometry.getEnvelopeInternal(). -/
def Geometry.getEnvelopeInternal (g : Geometry) : Envelope := g.envelope

/-- Geometry.getPrecisionModel(). -/
def Geometry.getPrecisionModel (g : Geometry) : PrecisionModel := g.precisionModel

/-- Buffer parameters (external configuration).  The two fields touched by
this file record whether the corresponding setter was invoked and with which
value; the inner Option models a JavaScript undefined argument. -/
structure BufferParameters where
  quadrantSegments : Option (Option Int) := none
  endCapStyle : Option (Option Int) := none

/-- Noding strategies, modelled by their construction shape: the orchestrator
builds ScaledNoder(MCIndexSnapRounder(PrecisionModel(1.0)), scale). -/
inductive Noder where
  | mcIndexSnapRounder (pm : PrecisionModel)
  | scaledNoder (inner : Noder) (scale : JsNum)

/-- Errors a builder invocation can raise: robustness failures
(TopologyException), any other error class, and the JavaScript value null
(thrown by the ladder when it exhausts without ever catching an exception). -/
inductive JsError where
  | topology (id : ℕ)
  | other (id : ℕ)
  | nullval

/-- One invocation of the external buffer builder: the parameters the builder
was constructed with, the buffered geometry and distance, and the optional
working precision model and noding strategy (set only on fixed-precision
attempts). -/
structure BuilderCall where
  bufParams : BufferParameters
  geom : Geometry
  distance : ℝ
  workingPM : Option PrecisionModel := none
  noder : Option Noder := none

/-- The external buffer builder, as an oracle: each invocation either
returns a result (possibly null) or raises an error. -/
abbrev Oracle := BuilderCall → Except JsError (Option Geometry)

/-- The orchestrator's mutable instance state: resultGeometry and
saveException, both initially null. -/
structure OpState where
  resultGeometry : Option Geometry := none
  saveException : Option JsError := none

/-- The orchestrator's per-request read-only fields: argGeom, distance and
bufParams. -/
structure OpCtx where
  argGeom : Geometry
  distance : ℝ
  bufParams : BufferParameters

/-- BufferOp.MAX_PRECISION_DIGITS (line 65). -/
def MAX_PRECISION_DIGITS : ℕ := 12

/-- JavaScript Math.log(x)/Math.log(10) on the nonnegative reals this file
applies it to: -Infinity at 0, the real base-10 logarithm on positives. -/
noncomputable def jsLog10 (x : ℝ) : EReal :=
  if x = 0 then ⊥ else ((Real.logb 10 x : ℝ) : EReal)

/-- JavaScript Math.pow(10.0, x) extended over infinities:
10^Infinity = Infinity, 10^(-Infinity) = 0. -/
noncomputable def jsPow10 (x : EReal) : EReal :=
  if x = ⊤ then ⊤ else if x = ⊥ then 0 else (((10 : ℝ) ^ x.toReal : ℝ) : EReal)

/-- BufferOp.precisionScaleFactor (lines 84-97), translated clause by clause:
envelope size, distance expansion, base-10 logarithm plus one, subtraction of
the digit count, and the power of ten with flipped sign. -/
noncomputable def precisionScaleFactor (g : Geometry) (distance : ℝ)
    (maxPrecisionDigits : ℕ) : EReal :=
  let env := g.getEnvelopeInternal
  let envSize := max env.getHeight env.getWidth
  let expandByDistance := if distance > 0 then distance else 0
  let bufEnvSize := envSize + 2 * expandByDistance
  let bufEnvLog10 := jsLog10 bufEnvSize + 1
  let minUnitLog10 := bufEnvLog10 - ((maxPrecisionDigits : ℝ) : EReal)
  jsPow10 (-minUnitLog10)

/-- The builder invocation made by the fast path (lines 252-256): a builder
constructed from bufParams, no working precision model, no explicit noder. -/
def origCall (ctx : OpCtx) : BuilderCall :=
  { bufParams := ctx.bufParams, geom := ctx.argGeom, distance := ctx.distance }

/-- The builder invocation made by a fixed-precision attempt (lines 268-278):
working precision model fixedPM, noder
ScaledNoder(MCIndexSnapRounder(PrecisionModel(1.0)), fixedPM.getScale()). -/
def fixedCall (ctx : OpCtx) (fixedPM : PrecisionModel) : BuilderCall :=
  { bufParams := ctx.bufParams, geom := ctx.argGeom, distance := ctx.distance,
    workingPM := some fixedPM,
    noder := some (Noder.scaledNoder
      (Noder.mcIndexSnapRounder (PrecisionModel.fixed (JsNum.num 1))) fixedPM.getScale) }

/-- bufferOriginalPrecision (lines 252-256): one builder invocation at the
geometry's own precision, with no catch: an error propagates, a returned
result is stored into resultGeometry.  The first component records the
builder invocations performed. -/
def bufferOriginalPrecision (ctx : OpCtx) (b : Oracle) (st : OpState) :
    List BuilderCall × Except JsError OpState :=
  ([origCall ctx],
    match b (origCall ctx) with
    | Except.ok r => Except.ok { st with resultGeometry := r }
    | Except.error e => Except.error e)

/-- bufferFixedPrecision (lines 268-278): one builder invocation with an
explicit working precision model and scale-aware noder, with no catch. -/
def bufferFixedPrecision (ctx : OpCtx) (b : Oracle) (fixedPM : PrecisionModel)
    (st : OpState) : List BuilderCall × Except JsError OpState :=
  ([fixedCall ctx fixedPM],
    match b (fixedCall ctx fixedPM) with
    | Except.ok r => Except.ok { st with resultGeometry := r }
    | Except.error e => Except.error e)

/-- The JavaScript value of precisionScaleFactor(argGeom, distance, d) when
the digit-count argument may be the undefined value of an arity-mismatched
call: with a numeric digit count it is precisionScaleFactor; with undefined,
the subtraction bufEnvLog10 - undefined evaluates to NaN (undefined coerces
to NaN, and both r - NaN and -Infinity - NaN are NaN), and
Math.pow(10.0, -NaN) is NaN, so the computed scale factor is NaN for every
geometry and distance. -/
noncomputable def precisionScaleFactorJs (g : Geometry) (distance : ℝ) :
    Option ℕ → JsNum
  | none => JsNum.nan
  | some d => JsNum.num (precisionScaleFactor g distance d)

/-- bufferReducedPrecision(precisionDigits) (lines 258-266), the second of
the two same-named prototype assignments and therefore the installed method:
derive the size-based scale factor (NaN when the argument is undefined),
build a fixed PrecisionModel from it, and run the fixed-precision attempt.
There is no catch here. -/
noncomputable def bufferReducedPrecision (ctx : OpCtx) (b : Oracle)
    (precisionDigits : Option ℕ) (st : OpState) :
    List BuilderCall × Except JsError OpState :=
  bufferFixedPrecision ctx b
    (PrecisionModel.fixed (precisionScaleFactorJs ctx.argGeom ctx.distance precisionDigits))
    st

/-- The state after one iteration of the try/catch in the ladder text of
lines 237-243: on normal completion the attempt's state, on an error the
caught error stored into saveException.  The inner call
this.bufferReducedPrecision(precDigits) resolves to the installed
one-parameter method, applied to the numeric digit count. -/
noncomputable def ladderAttempt (ctx : OpCtx) (b : Oracle) (precisionDigits : ℕ)
    (st : OpState) : OpState :=
  match (bufferReducedPrecision ctx b (some precisionDigits) st).2 with
  | Except.ok st' => st'
  | Except.error e => { st with saveException := some e }

/-- The exit of the ladder text of lines 244-249: return when a result is
present, otherwise throw the saved exception (the JavaScript value null when
no exception was ever saved). -/
def ladderExit (st : OpState) : Except JsError OpState :=
  if st.resultGeometry.isSome then Except.ok st
  else Except.error (st.saveException.getD JsError.nullval)

/-- The countdown loop of the ladder text of lines 236-246, from the given
digit count down to 0: attempt, catch into saveException, return on a
non-null result, otherwise continue with the next coarser digit count; after
digit 0, fall through to the throw. -/
noncomputable def ladderFrom (ctx : OpCtx) (b : Oracle) :
    ℕ → OpState → List BuilderCall × Except JsError OpState
  | 0, st =>
    ((bufferReducedPrecision ctx b (some 0) st).1, ladderExit (ladderAttempt ctx b 0 st))
  | n + 1, st =>
    if (ladderAttempt ctx b (n + 1) st).resultGeometry.isSome then
      ((bufferReducedPrecision ctx b (some (n + 1)) st).1,
        Except.ok (ladderAttempt ctx b (n + 1) st))
    else
      ((bufferReducedPrecision ctx b (some (n + 1)) st).1
          ++ (ladderFrom ctx b n (ladderAttempt ctx b (n + 1) st)).1,
        (ladderFrom ctx b n (ladderAttempt ctx b (n + 1) st)).2)

/-- bufferReducedPrecision() (lines 234-250): the reduced-precision ladder
starting at MAX_PRECISION_DIGITS, as the source text writes it.  This is the
FIRST of the two same-named assignments to
prototype.bufferReducedPrecision; the assignment at line 258 overwrites it
(the same last-assignment-wins semantics as the four bufferOp assignments),
so this function value is never the installed method and is unreachable in
the program. -/
noncomputable def bufferReducedPrecisionLadder (ctx : OpCtx) (b : Oracle)
    (st : OpState) : List BuilderCall × Except JsError OpState :=
  ladderFrom ctx b MAX_PRECISION_DIGITS st

/-- The value assigned to the prototype property bufferReducedPrecision by
one of its two same-named definitions, tagged by its declared parameter
list. -/
inductive ReducedPrecisionOverload where
  | ladder (f : OpState → List BuilderCall × Except JsError OpState)
  | withDigits (f : Option ℕ → OpState → List BuilderCall × Except JsError OpState)

/-- The two successive assignments to the single prototype property
bufferReducedPrecision, in source order (lines 234 and 258). -/
noncomputable def bufferReducedPrecisionAssignments (ctx : OpCtx) (b : Oracle) :
    List ReducedPrecisionOverload :=
  [ReducedPrecisionOverload.ladder (bufferReducedPrecisionLadder ctx b),
    ReducedPrecisionOverload.withDigits (bufferReducedPrecision ctx b)]

/-- The value held by the prototype property bufferReducedPrecision after the
module's assignments run: each assignment to the same property replaces the
previous value, leaving the one-parameter definition of lines 258-266. -/
noncomputable def bufferReducedPrecisionProperty (ctx : OpCtx) (b : Oracle) :
    Option ReducedPrecisionOverload :=
  (bufferReducedPrecisionAssignments ctx b).foldl (fun _ f => some f) none

/-- computeGeometry (lines 222-232): run the fast path (whose errors are not
caught), return if a result is present, otherwise dispatch on the input
geometry's precision model type: fixed models get one bufferFixedPrecision
attempt with that same model; for floating models the call
bufferReducedPrecision() at line 231 invokes the installed prototype method —
the one-parameter definition of lines 258-266, the later of the two
same-named assignments — with no arguments, that is with
precisionDigits = undefined, giving a single uncaught attempt at a
NaN-derived scale. -/
noncomputable def computeGeometry (ctx : OpCtx) (b : Oracle) (st : OpState) :
    List BuilderCall × Except JsError OpState :=
  match (bufferOriginalPrecision ctx b st).2 with
  | Except.error e => ((bufferOriginalPrecision ctx b st).1, Except.error e)
  | Except.ok st1 =>
    if st1.resultGeometry.isSome then ((bufferOriginalPrecision ctx b st).1, Except.ok st1)
    else if ctx.argGeom.getPrecisionModel.getType = PMType.FIXED then
      ((bufferOriginalPrecision ctx b st).1
          ++ (bufferFixedPrecision ctx b ctx.argGeom.getPrecisionModel st1).1,
        (bufferFixedPrecision ctx b ctx.argGeom.getPrecisionModel st1).2)
    else
      ((bufferOriginalPrecision ctx b st).1
          ++ (bufferReducedPrecision ctx b none st1).1,
        (bufferReducedPrecision ctx b none st1).2)

/-- The BufferOp instance: argGeom and bufParams (lines 50-53). -/
structure BufferOp where
  argGeom : Geometry
  bufParams : BufferParameters

/-- The BufferOp constructor (lines 50-53): a missing (undefined) parameter
object is replaced by a default-constructed BufferParameters. -/
def BufferOp.new (g : Geometry) (bufParams : Option BufferParameters) : BufferOp :=
  { argGeom := g, bufParams := bufParams.getD {} }

/-- getResultGeometry (lines 216-220): store the distance, run
computeGeometry, and return the resultGeometry field. -/
noncomputable def BufferOp.getResultGeometry (op : BufferOp) (b : Oracle)
    (distance : ℝ) : List BuilderCall × Except JsError (Option Geometry) :=
  ((computeGeometry ⟨op.argGeom, distance, op.bufParams⟩ b {}).1,
    Except.map (fun st => st.resultGeometry)
      (computeGeometry ⟨op.argGeom, distance, op.bufParams⟩ b {}).2)

/-- Modelled from the spec: BufferOp's setQuadrantSegments setter is outside
src/; section 6 lists the quadrant-segment count as buffer-parameter
configuration passed through unchanged to the builder, so the setter records
the supplied value (which may be the undefined argument of an arity-mismatched
call) into the operation's buffer parameters. -/
def BufferOp.setQuadrantSegments (op : BufferOp) (quadrantSegments : Option Int) :
    BufferOp :=
  { op with bufParams := { op.bufParams with quadrantSegments := some quadrantSegments } }

/-- Modelled from the spec: BufferOp's setEndCapStyle setter is outside src/;
section 6 lists the end-cap style as buffer-parameter configuration passed
through unchanged to the builder, so the setter records the supplied value
into the operation's buffer parameters. -/
def BufferOp.setEndCapStyle (op : BufferOp) (endCapStyle : Option Int) : BufferOp :=
  { op with bufParams := { op.bufParams with endCapStyle := some endCapStyle } }

/-- The outcome type of a static bufferOp call. -/
abbrev BufferResult := List BuilderCall × Except JsError (Option Geometry)

/-- The value assigned to the property jsts.operation.buffer.BufferOp.bufferOp
by one of the four same-named definitions, tagged by its declared parameter
list. -/
inductive BufferOpOverload where
  | twoArg (f : Geometry → ℝ → BufferResult)
  | threeArgParams (f : Geometry → ℝ → Option BufferParameters → BufferResult)
  | threeArgQuad (f : Geometry → ℝ → Option Int → BufferResult)
  | fourArg (f : Geometry → ℝ → Option Int → Option Int → BufferResult)

/-- The body of bufferOp(g, distance) (lines 109-113). -/
noncomputable def bufferOpV1 (b : Oracle) : Geometry → ℝ → BufferResult :=
  fun g distance => BufferOp.getResultGeometry (BufferOp.new g none) b distance

/-- The body of bufferOp(g, distance, params) (lines 129-133). -/
noncomputable def bufferOpV2 (b : Oracle) :
    Geometry → ℝ → Option BufferParameters → BufferResult :=
  fun g distance params => BufferOp.getResultGeometry (BufferOp.new g params) b distance

/-- The body of bufferOp(g, distance, quadrantSegments) (lines 150-156). -/
noncomputable def bufferOpV3 (b : Oracle) : Geometry → ℝ → Option Int → BufferResult :=
  fun g distance quadrantSegments =>
    BufferOp.getResultGeometry
      (BufferOp.setQuadrantSegments (BufferOp.new g none) quadrantSegments) b distance

/-- The body of bufferOp(g, distance, quadrantSegments, endCapStyle)
(lines 175-182). -/
noncomputable def bufferOpV4 (b : Oracle) :
    Geometry → ℝ → Option Int → Option Int → BufferResult :=
  fun g distance quadrantSegments endCapStyle =>
    BufferOp.getResultGeometry
      (BufferOp.setEndCapStyle
        (BufferOp.setQuadrantSegments (BufferOp.new g none) quadrantSegments)
        endCapStyle)
      b distance

/-- The four successive assignments to the single property
jsts.operation.buffer.BufferOp.bufferOp, in source order (lines 109, 129,
150, 175). -/
noncomputable def bufferOpAssignments (b : Oracle) : List BufferOpOverload :=
  [BufferOpOverload.twoArg (bufferOpV1 b),
    BufferOpOverload.threeArgParams (bufferOpV2 b),
    BufferOpOverload.threeArgQuad (bufferOpV3 b),
    BufferOpOverload.fourArg (bufferOpV4 b)]

/-- The value held by the property after the module's assignments run:
each assignment to the same property replaces the previous value. -/
noncomputable def bufferOpProperty (b : Oracle) : Option BufferOpOverload :=
  (bufferOpAssignments b).foldl (fun _ f => some f) none

/-- The six-step scale-factor derivation written in the words of spec
section 4.2, over the reals (the spec's domain when effectiveSize is
positive); kept separate from precisionScaleFactor so the two can be
compared. -/
noncomputable def specScaleFactor (g : Geometry) (distance : ℝ)
    (maxPrecisionDigits : ℕ) : ℝ :=
  let envelopeSize := max g.getEnvelopeInternal.getHeight g.getEnvelopeInternal.getWidth
  let expandBy := if 0 < distance then distance else 0
  let effectiveSize := envelopeSize + 2 * expandBy
  let log10EffectiveSize := Real.logb 10 effectiveSize + 1
  let log10MinUnit := log10EffectiveSize - (maxPrecisionDigits : ℝ)
  (10 : ℝ) ^ (-log10MinUnit)

/-- A concrete floating-precision geometry on the unit square. -/
noncomputable def g0 : Geometry := ⟨⟨0, 1, 0, 1⟩, PrecisionModel.floating⟩

/-- A concrete fixed-precision geometry on the unit square, scale 2. -/
noncomputable def gFix : Geometry := ⟨⟨0, 1, 0, 1⟩, PrecisionModel.fixed (JsNum.num 2)⟩

/-- A concrete geometry standing for a builder result. -/
noncomputable def gRes : Geometry := ⟨⟨0, 2, 0, 2⟩, PrecisionModel.floating⟩

/-- A concrete degenerate (point) geometry: zero-width, zero-height envelope. -/
noncomputable def gPoint : Geometry := ⟨⟨1, 1, 2, 2⟩, PrecisionModel.floating⟩

/-- A concrete geometry with a 3-by-4 envelope based at the origin. -/
noncomputable def gBox : Geometry := ⟨⟨0, 3, 0, 4⟩, PrecisionModel.floating⟩

/-- A concrete geometry with a translated 3-by-4 envelope and a fixed
precision model. -/
noncomputable def gBox2 : Geometry := ⟨⟨10, 13, 2, 6⟩, PrecisionModel.fixed (JsNum.num 2)⟩

/-- The orchestration context for g0 buffered at distance 1 with default
parameters. -/
noncomputable def ctx0 : OpCtx := ⟨g0, 1, {}⟩

/-- The orchestration context for gFix buffered at distance 1 with default
parameters. -/
noncomputable def ctxFix : OpCtx := ⟨gFix, 1, {}⟩

/-- A builder that raises a robustness failure on every invocation. -/
def oracleTopoAll : Oracle := fun _ => Except.error (JsError.topology 5)

/-- A builder that returns no result on unassisted (fast-path) invocations
and raises a robustness failure on every fixed-precision invocation. -/
def oracleLadderTopo : Oracle := fun c =>
  match c.workingPM with
  | none => Except.ok none
  | some _ => Except.error (JsError.topology 7)

/-- A builder that returns no result on unassisted invocations and raises a
non-robustness error on every fixed-precision invocation. -/
def oracleLadderOther : Oracle := fun c =>
  match c.workingPM with
  | none => Except.ok none
  | some _ => Except.error (JsError.other 9)

/-- A builder that returns no result on unassisted invocations and succeeds
with gRes on every fixed-precision invocation. -/
noncomputable def oracleSucceedFixed : Oracle := fun c =>
  match c.workingPM with
  | none => Except.ok none
  | some _ => Except.ok (some gRes)

/-- The source's expansion conditional equals the spec's clamp of the
distance at zero. -/
lemma expand_eq_max (d : ℝ) : (if d > 0 then d else 0) = max d 0 := by
  rcases le_or_lt d 0 with h | h
  · rw [if_neg (not_lt.mpr h), max_eq_right h]
  · rw [if_pos h, max_eq_left h.le]

/-- On a positive buffered envelope size, precisionScaleFactor is the real
number 10 ^ (-(log10(size) + 1 - digits)). -/
lemma precisionScaleFactor_eq_coe (g : Geometry) (distance : ℝ) (p : ℕ)
    (h : 0 < max g.getEnvelopeInternal.getHeight g.getEnvelopeInternal.getWidth
      + 2 * (if distance > 0 then distance else 0)) :
    precisionScaleFactor g distance p =
      (((10 : ℝ) ^ (-(Real.logb 10
        (max g.getEnvelopeInternal.getHeight g.getEnvelopeInternal.getWidth
          + 2 * (if distance > 0 then distance else 0)) + 1 - (p : ℝ))) : ℝ) : EReal) := by
  have hne : max g.getEnvelopeInternal.getHeight g.getEnvelopeInternal.getWidth
      + 2 * (if distance > 0 then distance else 0) ≠ 0 := ne_of_gt h
  simp only [precisionScaleFactor, jsLog10, if_neg hne]
  have hcast :
      ((Real.logb 10 (max g.getEnvelopeInternal.getHeight g.getEnvelopeInternal.getWidth
          + 2 * (if distance > 0 then distance else 0)) : ℝ) : EReal) + 1 - ((p : ℝ) : EReal)
        = ((Real.logb 10 (max g.getEnvelopeInternal.getHeight g.getEnvelopeInternal.getWidth
          + 2 * (if distance > 0 then distance else 0)) + 1 - (p : ℝ) : ℝ) : EReal) := by
    norm_cast
  rw [hcast, ← EReal.coe_neg]
  simp only [jsPow10, if_neg (EReal.coe_ne_top _), if_neg (EReal.coe_ne_bot _),
    EReal.toReal_coe]

/-- On a zero buffered envelope size, precisionScaleFactor is the infinite
scale factor. -/
lemma precisionScaleFactor_eq_top (g : Geometry) (distance : ℝ) (p : ℕ)
    (h : max g.getEnvelopeInternal.getHeight g.getEnvelopeInternal.getWidth
      + 2 * (if distance > 0 then distance else 0) = 0) :
    precisionScaleFactor g distance p = ⊤ := by
  simp only [precisionScaleFactor, jsLog10, if_pos h, jsPow10]
  rw [EReal.bot_add, EReal.bot_sub, EReal.neg_bot]
  simp

/-- When the fast-path builder invocation raises, computeGeometry propagates
the error with no further invocation (there is no catch around the fast
path). -/
lemma computeGeometry_fast_error (ctx : OpCtx) (b : Oracle) (st : OpState)
    (e : JsError) (h : b (origCall ctx) = Except.error e) :
    computeGeometry ctx b st = ([origCall ctx], Except.error e) := by
  simp [computeGeometry, bufferOriginalPrecision, h]

/-- When the fast path completes without a result and the input geometry's
precision model is floating, computeGeometry makes the single installed
reduced-precision attempt with an undefined digit count. -/
lemma computeGeometry_dispatch_floating (ctx : OpCtx) (b : Oracle)
    (hfloat : ctx.argGeom.getPrecisionModel = PrecisionModel.floating)
    (h : b (origCall ctx) = Except.ok none) :
    computeGeometry ctx b ⟨none, none⟩ =
      (origCall ctx :: (bufferReducedPrecision ctx b none ⟨none, none⟩).1,
        (bufferReducedPrecision ctx b none ⟨none, none⟩).2) := by
  simp [computeGeometry, bufferOriginalPrecision, h, hfloat, PrecisionModel.getType]

/-- When the fast path completes without a result and the input geometry's
precision model is fixed, computeGeometry performs the single
bufferFixedPrecision attempt with that same model. -/
lemma computeGeometry_dispatch_fixed (ctx : OpCtx) (b : Oracle) (s : JsNum)
    (hfix : ctx.argGeom.getPrecisionModel = PrecisionModel.fixed s)
    (h : b (origCall ctx) = Except.ok none) :
    computeGeometry ctx b ⟨none, none⟩ =
      (origCall ctx :: (bufferFixedPrecision ctx b (PrecisionModel.fixed s) ⟨none, none⟩).1,
        (bufferFixedPrecision ctx b (PrecisionModel.fixed s) ⟨none, none⟩).2) := by
  simp [computeGeometry, bufferOriginalPrecision, h, hfix, PrecisionModel.getType]

/-- C1: the claim that the orchestrator runs the reduced-precision ladder for
digits 12 down to 0 is false of the program: the assignment at line 258
overwrites the zero-argument ladder assigned at line 234 on the same
prototype property (the same last-assignment-wins semantics as the four
bufferOp assignments), so the installed bufferReducedPrecision is the
one-parameter body, and the no-argument call at line 231 invokes it with
precisionDigits = undefined.  The floating fallback is therefore one single
attempt at a NaN-derived scale: in this concrete resultless-fast-path run
the whole trace is the fast-path invocation plus exactly one fixed-precision
invocation whose precision model has the NaN scale — no invocation for any
digit count 12 down to 0 is ever made. -/
theorem reduced_precision_ladder_dead_code :
    (∀ (ctx : OpCtx) (b : Oracle),
      bufferReducedPrecisionProperty ctx b =
        some (ReducedPrecisionOverload.withDigits (bufferReducedPrecision ctx b))) ∧
    BufferOp.getResultGeometry ⟨g0, {}⟩ oracleSucceedFixed 1 =
      ([origCall ctx0, fixedCall ctx0 (PrecisionModel.fixed JsNum.nan)],
        Except.ok (some gRes)) :=
  ⟨fun _ _ => rfl, rfl⟩

/-- C2: the claim that exhausting the ladder raises the failure retained from
the digit-0 attempt is false of the program: the ladder of lines 234-250 is
dead code (overwritten at line 258), so on the floating path the fallback is
the single uncaught bufferReducedPrecision(undefined) attempt, and a
robustness failure raised there escapes getResultGeometry directly: in this
concrete run where every fixed-precision invocation raises TopologyException
7, the trace is the fast-path invocation plus the one NaN-scale invocation,
no digit-0 attempt exists, saveException is never assigned, and the escaping
error is the single attempt's own failure, not a terminal error carrying a
retained digit-0 cause. -/
theorem reduced_precision_failure_escapes_unretained :
    BufferOp.getResultGeometry ⟨g0, {}⟩ oracleLadderTopo 1 =
      ([origCall ctx0, fixedCall ctx0 (PrecisionModel.fixed JsNum.nan)],
        Except.error (JsError.topology 7)) := rfl

/-- C4: if the fast path completes without a result and the input geometry's
native precision model is already fixed, the orchestrator skips the ladder
and performs exactly one further builder invocation, with that same fixed
precision model paired with the scale-aware noder built from its scale; the
outcome of getResultGeometry is exactly the outcome of that single
invocation, so any failure of it propagates immediately and is not retried
at any other precision. -/
theorem fixed_precision_single_fallback_attempt
    (g : Geometry) (bufParams : BufferParameters) (b : Oracle) (distance : ℝ) (s : JsNum)
    (hfix : g.getPrecisionModel = PrecisionModel.fixed s)
    (hfast : b (origCall ⟨g, distance, bufParams⟩) = Except.ok none) :
    (BufferOp.getResultGeometry ⟨g, bufParams⟩ b distance).1 =
      [origCall ⟨g, distance, bufParams⟩,
        fixedCall ⟨g, distance, bufParams⟩ (PrecisionModel.fixed s)] ∧
    (BufferOp.getResultGeometry ⟨g, bufParams⟩ b distance).2 =
      b (fixedCall ⟨g, distance, bufParams⟩ (PrecisionModel.fixed s)) := by
  have hd := computeGeometry_dispatch_fixed ⟨g, distance, bufParams⟩ b s hfix hfast
  constructor
  · simp [BufferOp.getResultGeometry, hd, bufferFixedPrecision]
  · simp only [BufferOp.getResultGeometry, hd]
    rcases hb : b (fixedCall ⟨g, distance, bufParams⟩ (PrecisionModel.fixed s)) with e | r
    · simp [bufferFixedPrecision, hb, Except.map]
    · simp [bufferFixedPrecision, hb, Except.map]

/-- C4 witness: a concrete fixed-precision geometry whose fast path yields no
result and whose single fallback invocation raises a robustness failure. -/
theorem fixed_precision_single_fallback_attempt_witness :
    (gFix.getPrecisionModel = PrecisionModel.fixed (JsNum.num 2)) ∧
    (oracleLadderTopo (origCall ctxFix) = Except.ok none) ∧
    ((BufferOp.getResultGeometry ⟨gFix, {}⟩ oracleLadderTopo 1).1 =
        [origCall ctxFix, fixedCall ctxFix (PrecisionModel.fixed (JsNum.num 2))] ∧
      (BufferOp.getResultGeometry ⟨gFix, {}⟩ oracleLadderTopo 1).2 =
        oracleLadderTopo (fixedCall ctxFix (PrecisionModel.fixed (JsNum.num 2)))) :=
  ⟨rfl, rfl, fixed_precision_single_fallback_attempt gFix {} oracleLadderTopo 1 (JsNum.num 2) rfl rfl⟩

/-- C3: the claim that robustness failures of the fast-path attempt are
contained inside the orchestrator is false of the code: bufferOriginalPrecision
(lines 252-256) has no catch, so a robustness failure raised by the initial
fast-path builder invocation escapes to the caller as-is, after a trace of
exactly that one invocation and with no fallback attempt: here a concrete run
whose fast-path invocation raises TopologyException 5 makes
getResultGeometry raise TopologyException 5 itself. -/
theorem fastpath_robustness_failure_escapes :
    BufferOp.getResultGeometry ⟨g0, {}⟩ oracleTopoAll 1 =
      ([origCall ctx0], Except.error (JsError.topology 5)) := rfl

/-- C7: a non-robustness error raised during the reduced-precision phase
propagates immediately out of the orchestrator and no further attempt is
made after it.  In the program the reduced-precision phase is the single
installed bufferReducedPrecision(undefined) attempt (the lines-234-250
ladder with its catch being dead code, see the overwrite at line 258), and
that attempt is uncaught, so nothing is ever caught — in particular nothing
beyond a robustness failure — and any non-robustness builder error escapes
getResultGeometry as-is, with the trace ending at that attempt. -/
theorem nonrobustness_error_propagates_immediately
    (g : Geometry) (bufParams : BufferParameters) (b : Oracle) (distance : ℝ) (i : ℕ)
    (hfloat : g.getPrecisionModel = PrecisionModel.floating)
    (hfast : b (origCall ⟨g, distance, bufParams⟩) = Except.ok none)
    (herr : b (fixedCall ⟨g, distance, bufParams⟩ (PrecisionModel.fixed JsNum.nan)) =
      Except.error (JsError.other i)) :
    (BufferOp.getResultGeometry ⟨g, bufParams⟩ b distance).1 =
      [origCall ⟨g, distance, bufParams⟩,
        fixedCall ⟨g, distance, bufParams⟩ (PrecisionModel.fixed JsNum.nan)] ∧
    (BufferOp.getResultGeometry ⟨g, bufParams⟩ b distance).2 =
      Except.error (JsError.other i) := by
  have hd := computeGeometry_dispatch_floating ⟨g, distance, bufParams⟩ b hfloat hfast
  constructor
  · simp [BufferOp.getResultGeometry, hd, bufferReducedPrecision, bufferFixedPrecision,
      precisionScaleFactorJs]
  · simp only [BufferOp.getResultGeometry, hd]
    simp [bufferReducedPrecision, bufferFixedPrecision, precisionScaleFactorJs, herr,
      Except.map]

/-- C7 witness: a concrete run whose fast path yields no result and whose
single reduced-precision attempt raises the non-robustness error 9. -/
theorem nonrobustness_error_propagates_immediately_witness :
    (g0.getPrecisionModel = PrecisionModel.floating) ∧
    (oracleLadderOther (origCall ctx0) = Except.ok none) ∧
    (oracleLadderOther (fixedCall ctx0 (PrecisionModel.fixed JsNum.nan)) =
      Except.error (JsError.other 9)) ∧
    ((BufferOp.getResultGeometry ⟨g0, {}⟩ oracleLadderOther 1).1 =
        [origCall ctx0, fixedCall ctx0 (PrecisionModel.fixed JsNum.nan)] ∧
      (BufferOp.getResultGeometry ⟨g0, {}⟩ oracleLadderOther 1).2 =
        Except.error (JsError.other 9)) :=
  ⟨rfl, rfl, rfl,
    nonrobustness_error_propagates_immediately g0 {} oracleLadderOther 1 9 rfl rfl rfl⟩

/-- C5: whenever the effective size max(h, w) + 2 * max(dist, 0) is positive,
precisionScaleFactor equals the scale factor computed by the spec's six-step
derivation, 10 ^ (-((log10(effectiveSize) + 1) - p)). -/
theorem precisionScaleFactor_matches_spec_derivation (g : Geometry) (distance : ℝ)
    (p : ℕ)
    (h : 0 < max g.getEnvelopeInternal.getHeight g.getEnvelopeInternal.getWidth
      + 2 * max distance 0) :
    precisionScaleFactor g distance p = ((specScaleFactor g distance p : ℝ) : EReal) := by
  have h' : 0 < max g.getEnvelopeInternal.getHeight g.getEnvelopeInternal.getWidth
      + 2 * (if distance > 0 then distance else 0) := by
    rw [expand_eq_max]; exact h
  rw [precisionScaleFactor_eq_coe g distance p h']
  exact congrArg Real.toEReal rfl

/-- C5 witness: the derivation matches on a concrete 3-by-4 envelope at
distance 1 with 2 digits. -/
theorem precisionScaleFactor_matches_spec_derivation_witness :
    (0 < max gBox.getEnvelopeInternal.getHeight gBox.getEnvelopeInternal.getWidth
      + 2 * max (1 : ℝ) 0) ∧
    precisionScaleFactor gBox 1 2 = ((specScaleFactor gBox 1 2 : ℝ) : EReal) :=
  ⟨by norm_num [gBox, Geometry.getEnvelopeInternal, Envelope.getHeight, Envelope.getWidth],
    precisionScaleFactor_matches_spec_derivation gBox 1 2
      (by norm_num [gBox, Geometry.getEnvelopeInternal, Envelope.getHeight,
        Envelope.getWidth])⟩

/-- C6 counterexample: the claim that a zero effective size is special-cased
to a large but finite scale factor is false of the code: precisionScaleFactor
(lines 84-97) has no special case, and on a degenerate point geometry with a
negative distance it returns the infinite scale factor
(Math.log(0) = -Infinity, Math.pow(10, Infinity) = Infinity), not a finite
value. -/
theorem precisionScaleFactor_infinite_on_degenerate_input :
    precisionScaleFactor gPoint (-1) MAX_PRECISION_DIGITS = ⊤ := by
  apply precisionScaleFactor_eq_top
  norm_num [gPoint, Geometry.getEnvelopeInternal, Envelope.getHeight, Envelope.getWidth]

/-- C6 amended: precisionScaleFactor is total and, on geometries with
nonnegative envelope extents, always returns a positive value; but when the
effective size is zero it returns the infinite scale factor (there is no
special case producing a large but finite value). -/
theorem precisionScaleFactor_positive_infinite_at_zero_size (g : Geometry)
    (distance : ℝ) (p : ℕ)
    (henv : 0 ≤ max g.getEnvelopeInternal.getHeight g.getEnvelopeInternal.getWidth) :
    0 < precisionScaleFactor g distance p ∧
      (max g.getEnvelopeInternal.getHeight g.getEnvelopeInternal.getWidth
          + 2 * (if distance > 0 then distance else 0) = 0 →
        precisionScaleFactor g distance p = ⊤) := by
  have hexp : 0 ≤ (if distance > 0 then distance else 0 : ℝ) := by
    by_cases hd : distance > 0
    · rw [if_pos hd]; exact le_of_lt hd
    · rw [if_neg hd]
  have hS : 0 ≤ max g.getEnvelopeInternal.getHeight g.getEnvelopeInternal.getWidth
      + 2 * (if distance > 0 then distance else 0) := by linarith
  rcases eq_or_lt_of_le hS with hz | hpos
  · rw [precisionScaleFactor_eq_top g distance p hz.symm]
    exact ⟨by simp, fun _ => rfl⟩
  · constructor
    · rw [precisionScaleFactor_eq_coe g distance p hpos]
      have hr : (0 : ℝ) < (10 : ℝ)
          ^ (-(Real.logb 10
            (max g.getEnvelopeInternal.getHeight g.getEnvelopeInternal.getWidth
              + 2 * (if distance > 0 then distance else 0)) + 1 - (p : ℝ))) :=
        Real.rpow_pos_of_pos (by norm_num) _
      exact_mod_cast hr
    · intro h0
      exact absurd h0 (ne_of_gt hpos)

/-- C6 amended witness: on the degenerate point geometry at distance -3 the
scale factor is positive and infinite. -/
theorem precisionScaleFactor_positive_infinite_at_zero_size_witness :
    (0 ≤ max gPoint.getEnvelopeInternal.getHeight gPoint.getEnvelopeInternal.getWidth) ∧
    (max gPoint.getEnvelopeInternal.getHeight gPoint.getEnvelopeInternal.getWidth
      + 2 * (if (-3 : ℝ) > 0 then (-3 : ℝ) else 0) = 0) ∧
    0 < precisionScaleFactor gPoint (-3) 7 ∧
    precisionScaleFactor gPoint (-3) 7 = ⊤ :=
  ⟨by norm_num [gPoint, Geometry.getEnvelopeInternal, Envelope.getHeight,
      Envelope.getWidth],
    by norm_num [gPoint, Geometry.getEnvelopeInternal, Envelope.getHeight,
      Envelope.getWidth],
    (precisionScaleFactor_positive_infinite_at_zero_size gPoint (-3) 7
      (by norm_num [gPoint, Geometry.getEnvelopeInternal, Envelope.getHeight,
        Envelope.getWidth])).1,
    (precisionScaleFactor_positive_infinite_at_zero_size gPoint (-3) 7
      (by norm_num [gPoint, Geometry.getEnvelopeInternal, Envelope.getHeight,
        Envelope.getWidth])).2
      (by norm_num [gPoint, Geometry.getEnvelopeInternal, Envelope.getHeight,
        Envelope.getWidth])⟩

/-- C8: for a fixed geometry and distance with positive effective envelope
size, precisionScaleFactor is monotonically increasing in the digit count. -/
theorem precisionScaleFactor_monotone_in_digits (g : Geometry) (distance : ℝ)
    (p1 p2 : ℕ)
    (h : 0 < max g.getEnvelopeInternal.getHeight g.getEnvelopeInternal.getWidth
      + 2 * max distance 0)
    (hp : p1 ≤ p2) :
    precisionScaleFactor g distance p1 ≤ precisionScaleFactor g distance p2 := by
  have h' : 0 < max g.getEnvelopeInternal.getHeight g.getEnvelopeInternal.getWidth
      + 2 * (if distance > 0 then distance else 0) := by
    rw [expand_eq_max]; exact h
  rw [precisionScaleFactor_eq_coe g distance p1 h',
    precisionScaleFactor_eq_coe g distance p2 h']
  rw [EReal.coe_le_coe_iff]
  apply (Real.rpow_le_rpow_left_iff (by norm_num : (1 : ℝ) < 10)).mpr
  have hc : (p1 : ℝ) ≤ (p2 : ℝ) := Nat.cast_le.mpr hp
  linarith

/-- C8 witness: monotonicity at digits 3 and 5 on a concrete envelope. -/
theorem precisionScaleFactor_monotone_in_digits_witness :
    (0 < max gBox.getEnvelopeInternal.getHeight gBox.getEnvelopeInternal.getWidth
      + 2 * max (1 : ℝ) 0) ∧
    (3 ≤ 5) ∧
    precisionScaleFactor gBox 1 3 ≤ precisionScaleFactor gBox 1 5 :=
  ⟨by norm_num [gBox, Geometry.getEnvelopeInternal, Envelope.getHeight, Envelope.getWidth],
    by norm_num,
    precisionScaleFactor_monotone_in_digits gBox 1 3 5
      (by norm_num [gBox, Geometry.getEnvelopeInternal, Envelope.getHeight,
        Envelope.getWidth])
      (by norm_num)⟩

/-- C9: precisionScaleFactor reads the distance only through its clamp at
zero (all nonpositive distances give the same scale factor) and reads the
geometry only through its envelope's width and height (two geometries with
equal envelope width and height give equal scale factors for the same
distance and digit count). -/
theorem precisionScaleFactor_depends_only_on_envelope_and_clamped_distance :
    (∀ (g : Geometry) (p : ℕ) (d1 d2 : ℝ), d1 ≤ 0 → d2 ≤ 0 →
      precisionScaleFactor g d1 p = precisionScaleFactor g d2 p) ∧
    (∀ (g1 g2 : Geometry) (d : ℝ) (p : ℕ),
      g1.getEnvelopeInternal.getWidth = g2.getEnvelopeInternal.getWidth →
      g1.getEnvelopeInternal.getHeight = g2.getEnvelopeInternal.getHeight →
      precisionScaleFactor g1 d p = precisionScaleFactor g2 d p) := by
  constructor
  · intro g p d1 d2 h1 h2
    simp only [precisionScaleFactor, if_neg (not_lt.mpr h1), if_neg (not_lt.mpr h2)]
  · intro g1 g2 d p hW hH
    simp only [precisionScaleFactor]
    rw [hW, hH]

/-- C9 witness: two nonpositive distances agree on gBox, and gBox agrees with
the translated fixed-precision gBox2 of equal envelope extents. -/
theorem precisionScaleFactor_depends_only_on_envelope_and_clamped_distance_witness :
    ((-1 : ℝ) ≤ 0) ∧ ((-2 : ℝ) ≤ 0) ∧
    precisionScaleFactor gBox (-1) 4 = precisionScaleFactor gBox (-2) 4 ∧
    (gBox.getEnvelopeInternal.getWidth = gBox2.getEnvelopeInternal.getWidth) ∧
    (gBox.getEnvelopeInternal.getHeight = gBox2.getEnvelopeInternal.getHeight) ∧
    precisionScaleFactor gBox 1 4 = precisionScaleFactor gBox2 1 4 :=
  ⟨by norm_num, by norm_num,
    precisionScaleFactor_depends_only_on_envelope_and_clamped_distance.1 gBox 4 (-1) (-2)
      (by norm_num) (by norm_num),
    by norm_num [gBox, gBox2, Geometry.getEnvelopeInternal, Envelope.getWidth],
    by norm_num [gBox, gBox2, Geometry.getEnvelopeInternal, Envelope.getHeight],
    precisionScaleFactor_depends_only_on_envelope_and_clamped_distance.2 gBox gBox2 1 4
      (by norm_num [gBox, gBox2, Geometry.getEnvelopeInternal, Envelope.getWidth])
      (by norm_num [gBox, gBox2, Geometry.getEnvelopeInternal, Envelope.getHeight])⟩

/-- C10: the four same-named assignments to the static property bufferOp
leave only the last (four-parameter) definition in effect, and a
two-argument call therefore executes the four-parameter body with undefined
third and fourth arguments: it constructs a BufferOp with default
parameters, records quadrant segments and end-cap style as explicitly set to
undefined, and then computes the result. -/
theorem bufferOp_last_assignment_wins (b : Oracle) :
    bufferOpProperty b = some (BufferOpOverload.fourArg (bufferOpV4 b)) ∧
    ∀ (g : Geometry) (distance : ℝ),
      bufferOpV4 b g distance none none =
        BufferOp.getResultGeometry
          ⟨g, { quadrantSegments := some none, endCapStyle := some none }⟩ b distance :=
  ⟨rfl, fun _ _ => rfl⟩

end Jsts
